import Mathlib

/-!
Shallow embedding of the zero-trust message authentication and routing engine
(`src/zero_trust_research/zero_trust_architecture.py`).

Modelling conventions:
- Python float timestamps (`time.time()`) are modelled as integers; every
  claim about time is stated at whole-second offsets.
- Byte strings (public keys) are modelled as `String` (opaque).
- `CryptographicValidator.verify_signature` is a deterministic function of
  (public_key_bytes, signature_hex, content); the development is parameterized
  over it (`verifySig`).  The `CRYPTO_AVAILABLE = False` mock branch of the
  source is embedded concretely (`sign_packet_content` / `verify_signature_mock`)
  with the sha256 hexdigest abstracted as a `hash` parameter.
- Python's module-level `nonce_history : set` is a set of hex digests; it is
  modelled as a `List String` used only through membership and insertion.
- Python dicts keyed by strings are modelled as association lists where
  insertion conses in front and lookup takes the first match (dict overwrite
  semantics).
-/

/-- The `MessageType` enum values; stored as the enum's string value.  A Python
enum member is always truthy, which `validate_structure` relies on. -/
inductive MessageType where
  | verification_request
  | plan
  | execute
  | consensus_update
  | health_report
  | alert
deriving DecidableEq

/-- The `CognitivePacket` dataclass: the envelope.  Field names follow the source.
`timestamp` is an integer (see module comment). -/
structure CognitivePacket where
  message_type : MessageType
  content : String
  response_format : Option String
  context : Option String
  routing_path : List String
  priority : String
  batch_id : Option String
  consensus_required : Bool
  component_type : Option String
  specialization : Option String
  resource_cost : String
  processing_mode : String
  sender_id : String
  trust_level : String
  constitutional_flags : List String
  signature : String
  packet_id : String
  timestamp : Int
  protocol_version : String
  nonce : String
deriving DecidableEq

/-- The `CognitivePacket.validate_structure`: every required field present and
truthy.  `message_type` is an enum member, hence always truthy in Python, so
it imposes no condition; a truthy float timestamp means nonzero; truthy
strings mean nonempty. -/
def CognitivePacket.validate_structure (p : CognitivePacket) : Bool :=
  !p.packet_id.isEmpty && !p.sender_id.isEmpty && !p.content.isEmpty &&
  p.timestamp != 0 && !p.signature.isEmpty

/-- One entry of `ZeroTrustBus.component_registry` as built by
`register_component`.  The redundant display field `public_key_hex`
(a hex rendering of `public_key_bytes`) is omitted; nothing reads it. -/
structure RegistryEntry where
  public_key_bytes : String
  trust_level : String
  constitutional_flags : List String
  registered_at : Int
  status : String
deriving DecidableEq

/-- Dict lookup: first match wins (insertion conses in front, modelling
overwrite). -/
def registryLookup (reg : List (String × RegistryEntry)) (cid : String) :
    Option RegistryEntry :=
  match reg with
  | [] => none
  | (k, e) :: rest => if k == cid then some e else registryLookup rest cid

/-- A violation record appended by `AutisticVerifier.flag_violation`.
`reason` holds the source's literal reason string; `context` holds
`str(context)[:200]`. -/
structure VerificationFlag where
  timestamp : Int
  reason : String
  context : String
  verifier_id : String
deriving DecidableEq

/-- The `AutisticVerifier` mutable state: the two append-only lists. -/
structure AutisticVerifier where
  verifier_id : String
  flags : List VerificationFlag
  pattern_violations : List VerificationFlag
deriving DecidableEq

/-- Stand-in for Python `str(packet)`: a rendering of the packet's fields.
The exact dataclass repr format is abstracted; no claim inspects the
`context` text of a flag. -/
def packetContext (p : CognitivePacket) : String :=
  p.packet_id ++ "," ++ p.sender_id ++ "," ++ p.content ++ "," ++
    toString p.timestamp ++ "," ++ p.nonce

/-- The `AutisticVerifier.flag_violation`: append one violation record to both
`flags` and `pattern_violations`; context truncated to 200 characters. -/
def flag_violation (now : Int) (v : AutisticVerifier) (reason : String)
    (context : String) : AutisticVerifier :=
  let f : VerificationFlag := ⟨now, reason, context.take 200, v.verifier_id⟩
  { v with flags := v.flags ++ [f], pattern_violations := v.pattern_violations ++ [f] }

/-- The `AutisticVerifier.verify_message_pattern` for a `CognitivePacket`
(the `isinstance(packet, CognitivePacket)` branch is always taken, since the
legacy `Message` path first converts via `to_cognitive_packet`).  `reg` is
the bus registry the verifier was constructed with (`bus_registry`); `now`
is `time.time()`.  Returns the boolean result and the updated verifier. -/
def verify_message_pattern (reg : List (String × RegistryEntry)) (now : Int)
    (v : AutisticVerifier) (p : CognitivePacket) : Bool × AutisticVerifier :=
  if !p.validate_structure then
    (false, flag_violation now v "Missing required packet fields" (packetContext p))
  else if (p.timestamp - now).natAbs > 300 then
    (false, flag_violation now v "Timestamp outside acceptable window" (packetContext p))
  else if p.trust_level == "constitutional_protected" then
    if !(p.constitutional_flags.contains "protected") then
      (false, flag_violation now v "Constitutional trust level without protection flag"
        (packetContext p))
    else
      -- get_sender_info: registry lookup; an absent entry is the falsy {} in
      -- Python, so the trust-level comparison below is skipped for it.
      match registryLookup reg p.sender_id with
      | some info =>
        if info.trust_level != "constitutional_protected" then
          (false, flag_violation now v "Non-constitutional component claiming constitutional trust"
            (packetContext p))
        else (true, v)
      | none => (true, v)
  else (true, v)

/-- The `CryptographicValidator.sign_packet_content`, mock branch:
`"mock_signature_" + sha256(content).hexdigest()[:16]`, with the sha256
hexdigest abstracted as `hash`. -/
def sign_packet_content (hash : String → String) (content : String) : String :=
  "mock_signature_" ++ (hash content).take 16

/-- The `CryptographicValidator.verify_signature`, mock branch: compare the given
signature to the expected mock signature of the content.  Note the public key
is not consulted in this branch. -/
def verify_signature_mock (hash : String → String) :
    String → String → String → Bool :=
  fun _public_key_bytes signature_hex content =>
    signature_hex == sign_packet_content hash content

/-- The signable content built by `ZeroTrustBus._verify_packet_signature` for
a `CognitivePacket`: `f"{sender_id}{content}{timestamp}{nonce}"`. -/
def signable_content (p : CognitivePacket) : String :=
  p.sender_id ++ p.content ++ toString p.timestamp ++ p.nonce

/-- The `ZeroTrustBus._verify_packet_signature`: registry lookup of the sender;
absent sender yields `false`; otherwise verify the signature over
`signable_content`.  `verifySig` abstracts
`CryptographicValidator.verify_signature`. -/
def verify_packet_signature (verifySig : String → String → String → Bool)
    (reg : List (String × RegistryEntry)) (p : CognitivePacket) : Bool :=
  match registryLookup reg p.sender_id with
  | none => false
  | some info => verifySig info.public_key_bytes p.signature (signable_content p)

/-- The result of `ZeroTrustBus.apply_critical_reasoning_packet`.  The source
also attaches `recommendations = []` and a `layer_analysis` dict of display
strings; nothing reads them, so they are omitted.  `risk_score` is kept in
tenths: the source's float arithmetic (0.1 base, +0.3, +0.2, +0.1, compared
with 0.5) agrees with exact tenths at the single `< 0.5` comparison for all
eight flag combinations (in binary64, 0.1 + 0.3 + 0.1 evaluates to exactly
0.5), so integer tenths are a faithful model. -/
structure ReasoningResult where
  safe : Bool
  reasoning : String
  risk_score : Nat
deriving DecidableEq

/-- The risk heuristic of `apply_critical_reasoning_packet`, in tenths. -/
def risk_score (p : CognitivePacket) : Nat :=
  1 + (if p.resource_cost == "critical" then 3 else 0)
    + (if p.priority == "emergency" then 2 else 0)
    + (if p.consensus_required then 1 else 0)

/-- The `ZeroTrustBus.apply_critical_reasoning_packet`: deterministic risk scoring;
safe iff the score is below 0.5 (5 tenths). -/
def apply_critical_reasoning_packet (p : CognitivePacket) (reasoning : String) :
    ReasoningResult :=
  { safe := risk_score p < 5, reasoning := reasoning, risk_score := risk_score p }

/-- One record appended to a destination buffer by `route_cognitive_packet`:
`{cognitive_packet, reasoning, routed_at}`.  The source stores
`packet.to_json_packet()`, a lossless rendering of the packet; the packet
itself is stored here. -/
structure RoutedRecord where
  cognitive_packet : CognitivePacket
  reasoning : ReasoningResult
  routed_at : Int
deriving DecidableEq

/-- Buffer lookup (dict `.get` without default). -/
def buffersLookup (bufs : List (String × List RoutedRecord)) (cid : String) :
    Option (List RoutedRecord) :=
  match bufs with
  | [] => none
  | (k, l) :: rest => if k == cid then some l else buffersLookup rest cid

/-- One iteration of the delivery loop in `route_cognitive_packet`:
`target_buffer = self.message_buffers.get(receiver_id, []);
target_buffer.append(record)`.  The append mutates the stored list in place
only when the key is present in the dict; for an absent key it appends to a
fresh temporary list that is immediately discarded, so the dict is unchanged. -/
def buffersAppend (bufs : List (String × List RoutedRecord)) (cid : String)
    (r : RoutedRecord) : List (String × List RoutedRecord) :=
  match bufs with
  | [] => []
  | (k, l) :: rest =>
    if k == cid then (k, l ++ [r]) :: rest else (k, l) :: buffersAppend rest cid r

/-- The `ZeroTrustBus` mutable state.  The verifier shares `component_registry`
with the bus (it holds a reference to the same dict), so registry arguments to
verifier functions are drawn from this field. -/
structure BusState where
  component_registry : List (String × RegistryEntry)
  message_buffers : List (String × List RoutedRecord)
  nonce_history : List String
  autistic_verifier : AutisticVerifier
deriving DecidableEq

/-- The `ZeroTrustBus.__init__`: three fixed destination buffers, empty registry,
empty nonce history, fresh verifier. -/
def initialBus : BusState :=
  { component_registry := []
    message_buffers := [("claude_code", []), ("claude_main", []), ("openai", [])]
    nonce_history := []
    autistic_verifier := ⟨"primary_verifier", [], []⟩ }

/-- The `ZeroTrustBus.register_component`: dict overwrite of the registry entry
(modelled by consing in front; lookup takes the first match). -/
def register_component (now : Int) (s : BusState) (component_id : String)
    (public_key_bytes : String) (trust_level : String)
    (constitutional_flags : List String) : BusState :=
  { s with component_registry :=
      (component_id,
        { public_key_bytes := public_key_bytes, trust_level := trust_level,
          constitutional_flags := constitutional_flags,
          registered_at := now, status := "active" }) :: s.component_registry }

/-- The replay key computed in `validate_packet`:
`sha256(f"{sender_id}{nonce}{timestamp}").hexdigest()`, with sha256 hexdigest
abstracted as `hash` (both `isinstance` branches build the same string). -/
def packet_replay_key (hash : String → String) (p : CognitivePacket) : String :=
  hash (p.sender_id ++ p.nonce ++ toString p.timestamp)

/-- The `ZeroTrustBus.validate_packet`: structure check (silent failure), then
signature check (flagging "Invalid cryptographic signature" on failure), then
the verifier's pattern check, then the nonce-reuse check with insertion of the
replay key on success.  Returns the boolean result and the updated bus. -/
def validate_packet (hash : String → String)
    (verifySig : String → String → String → Bool) (now : Int)
    (s : BusState) (p : CognitivePacket) : Bool × BusState :=
  if !p.validate_structure then (false, s)
  else if !(verify_packet_signature verifySig s.component_registry p) then
    (false, { s with autistic_verifier :=
        (flag_violation now s.autistic_verifier "Invalid cryptographic signature"
          (packetContext p)) })
  else
    match verify_message_pattern s.component_registry now s.autistic_verifier p with
    | (false, v) => (false, { s with autistic_verifier := v })
    | (true, v) =>
      if s.nonce_history.contains (packet_replay_key hash p) then
        (false, { s with autistic_verifier :=
            (flag_violation now v "Nonce reuse detected" (packetContext p)) })
      else
        (true, { s with
            autistic_verifier := v
            nonce_history := packet_replay_key hash p :: s.nonce_history })

/-- The `ZeroTrustBus.route_cognitive_packet`: validate, score risk, and if safe
append the record to each buffer named in `routing_path`, in order, via the
`.get(receiver_id, [])`-then-append loop (`buffersAppend`).  Returns `True`
only on the validated-and-safe path; both a failed validation and a withheld
(unsafe) packet return `False`. -/
def route_cognitive_packet (hash : String → String)
    (verifySig : String → String → String → Bool) (now : Int)
    (s : BusState) (p : CognitivePacket) (critical_reasoning : String) :
    Bool × BusState :=
  match validate_packet hash verifySig now s p with
  | (false, s1) => (false, s1)
  | (true, s1) =>
    let rr := apply_critical_reasoning_packet p critical_reasoning
    if rr.safe then
      let record : RoutedRecord := ⟨p, rr, now⟩
      (true, { s1 with message_buffers :=
          (p.routing_path.foldl (fun bufs rid => buffersAppend bufs rid record)
            s1.message_buffers) })
    else (false, s1)

/-- The status dict returned by `ZeroTrustBus.get_verifier_status`. -/
structure VerifierStatus where
  verifier_id : String
  active_flags : List VerificationFlag
  total_violations : Nat
  status : String
deriving DecidableEq

/-- The `ZeroTrustBus.get_verifier_status`: `active_flags` is
`get_active_flags()` (the `flags` list); `total_violations` is the length of
`pattern_violations`. -/
def get_verifier_status (s : BusState) : VerifierStatus :=
  ⟨s.autistic_verifier.verifier_id, s.autistic_verifier.flags,
    s.autistic_verifier.pattern_violations.length, "protected"⟩

/-- One recorded attempt in `ConsensusMonitor.bypass_attempts`. -/
structure BypassAttempt where
  timestamp : Int
  target : String
  attackers : List String
deriving DecidableEq

/-- The `ConsensusMonitor` state: the attempt list and the fixed threshold (3). -/
structure ConsensusMonitor where
  bypass_attempts : List BypassAttempt
  attack_threshold : Nat
deriving DecidableEq

/-- The `ConsensusMonitor.__init__`. -/
def initialMonitor : ConsensusMonitor := ⟨[], 3⟩

/-- The alert dict built by `ConsensusMonitor.issue_attack_alert`. -/
structure AttackAlert where
  alert_type : String
  timestamp : Int
  details : String
  attempts : List BypassAttempt
  severity : String
deriving DecidableEq

/-- The `ConsensusMonitor.issue_attack_alert`. -/
def issue_attack_alert (now : Int) (attempts : List BypassAttempt) : AttackAlert :=
  ⟨"consensus_attack_detected", now, "Multiple attempts to bypass autistic verifier detected",
    attempts, "critical"⟩

/-- The `ConsensusMonitor.check_bypass_attempt`: an attempt is recorded only when
at least two attackers appear in this single call AND the target is the
literal "autistic_verifier"; then attempts of the last hour (strictly less
than 3600 seconds old) are counted against the threshold, and on reaching it
the alert is returned.  Otherwise `None`. -/
def check_bypass_attempt (now : Int) (m : ConsensusMonitor)
    (target_component : String) (attempting_components : List String) :
    Option AttackAlert × ConsensusMonitor :=
  if attempting_components.length ≥ 2 && target_component == "autistic_verifier" then
    let attempt : BypassAttempt := ⟨now, target_component, attempting_components⟩
    let m1 : ConsensusMonitor := { m with bypass_attempts := m.bypass_attempts ++ [attempt] }
    let recent := m1.bypass_attempts.filter (fun a => now - a.timestamp < 3600)
    if recent.length ≥ m.attack_threshold then
      (some (issue_attack_alert now recent), m1)
    else (none, m1)
  else (none, m)

/-- The bus operations of the core API, for stating ledger invariants over
arbitrary call sequences. -/
inductive BusOp where
  | register (component_id public_key_bytes trust_level : String)
      (constitutional_flags : List String)
  | validate (p : CognitivePacket)
  | route (p : CognitivePacket) (critical_reasoning : String)
  | status
deriving DecidableEq

/-- One API call against the bus state (`status` is read-only). -/
def busStep (hash : String → String)
    (verifySig : String → String → String → Bool) (now : Int)
    (s : BusState) : BusOp → BusState
  | .register cid pk tl fl => register_component now s cid pk tl fl
  | .validate p => (validate_packet hash verifySig now s p).2
  | .route p r => (route_cognitive_packet hash verifySig now s p r).2
  | .status => s

/-- A sequence of timestamped API calls. -/
def busRun (hash : String → String)
    (verifySig : String → String → String → Bool)
    (s : BusState) : List (Int × BusOp) → BusState
  | [] => s
  | (now, op) :: rest => busRun hash verifySig (busStep hash verifySig now s op) rest

/-! Concrete fixtures for witnesses and counterexamples. -/

/-- Identity stand-in for the abstract sha256 hexdigest in concrete runs. -/
def idHash : String → String := fun s => s

/-- A crypto oracle accepting every signature; used in concrete runs of claims
that concern only post-signature behaviour. -/
def okVerify : String → String → String → Bool := fun _ _ _ => true

/-- A registered component at trust level "verified". -/
def aliceEntry : RegistryEntry := ⟨"alice_pk", "verified", [], 0, "active"⟩

def sampleRegistry : List (String × RegistryEntry) := [("alice", aliceEntry)]

def sampleBus : BusState := { initialBus with component_registry := sampleRegistry }

/-- A structurally valid, fresh-at-time-1000, non-constitutional packet. -/
def basePacket : CognitivePacket :=
  { message_type := .execute, content := "hello", response_format := none,
    context := none, routing_path := ["claude_code"], priority := "normal",
    batch_id := none, consensus_required := false, component_type := none,
    specialization := none, resource_cost := "low", processing_mode := "automatic",
    sender_id := "alice", trust_level := "verified", constitutional_flags := [],
    signature := "unsigned", packet_id := "pkt-1", timestamp := 1000,
    protocol_version := "1.0", nonce := "n1" }

/-- The `basePacket` signed by the mock signing path over its signable content
(which does not read the signature field). -/
def signedPacket : CognitivePacket :=
  { basePacket with signature := sign_packet_content idHash (signable_content basePacket) }

/-- A verifier with no recorded violations. -/
def freshVerifier : AutisticVerifier := ⟨"primary_verifier", [], []⟩

/-- A component registered at trust level "provisional". -/
def malloryEntry : RegistryEntry := ⟨"m_pk", "provisional", [], 0, "active"⟩

def malloryRegistry : List (String × RegistryEntry) := [("mallory", malloryEntry)]

/-- A packet from "mallory" claiming constitutional protection with the
"protected" flag present. -/
def malloryPacket : CognitivePacket :=
  { basePacket with
      sender_id := "mallory"
      trust_level := "constitutional_protected"
      constitutional_flags := ["protected"] }

/-- A packet from the unregistered sender "ghost" claiming constitutional
protection with the "protected" flag present. -/
def ghostConstPacket : CognitivePacket :=
  { basePacket with
      sender_id := "ghost"
      trust_level := "constitutional_protected"
      constitutional_flags := ["protected"] }

/-- The signed packet with only the priority field mutated after signing. -/
def tamperedPriorityPacket : CognitivePacket :=
  { signedPacket with priority := "emergency" }

/-- The signed packet with elevated risk fields; its signable content (hence
its mock signature) is unchanged, so it still verifies. -/
def riskyPacket : CognitivePacket :=
  { signedPacket with
      resource_cost := "critical"
      priority := "emergency" }

/-- The signed packet multicast to one pre-initialized destination and one
destination that has no buffer. -/
def twoDestPacket : CognitivePacket :=
  { signedPacket with routing_path := ["claude_code", "component_x"] }

/-- A packet from the registered sender "alice" carrying a wrong signature. -/
def badSigPacket : CognitivePacket :=
  { basePacket with signature := "bad_signature" }

/-- The base packet re-attributed to the unregistered sender "ghost". -/
def ghostPacket : CognitivePacket :=
  { basePacket with sender_id := "ghost" }

/-- A previously raised violation record, for ledger-permanence witnesses. -/
def someFlag : VerificationFlag :=
  ⟨500, "Invalid cryptographic signature", "ctx", "primary_verifier"⟩

/-- The sample bus after one violation has been recorded. -/
def flaggedBus : BusState :=
  { sampleBus with autistic_verifier := ⟨"primary_verifier", [someFlag], [someFlag]⟩ }

/-! ## C7: the 300-second freshness boundary -/

/-- C7: Timestamp freshness has a 300-second boundary.  For a packet whose
other checks pass (valid structure at both mutated timestamps, and a trust
claim below constitutional so the policy branch is vacuous), the variant whose
`created_at` is exactly 301 seconds in the past is rejected by
`verify_message_pattern` with the stale-timestamp flag, while the variant
exactly 299 seconds in the past passes. -/
theorem freshness_boundary_301_rejected_299_accepted
    (reg : List (String × RegistryEntry)) (now : Int) (v : AutisticVerifier)
    (p : CognitivePacket)
    (hs301 : ({ p with timestamp := now - 301 } : CognitivePacket).validate_structure = true)
    (hs299 : ({ p with timestamp := now - 299 } : CognitivePacket).validate_structure = true)
    (htrust : p.trust_level ≠ "constitutional_protected") :
    (verify_message_pattern reg now v { p with timestamp := now - 301 }).1 = false ∧
    ((verify_message_pattern reg now v { p with timestamp := now - 301 }).2.flags.map
        VerificationFlag.reason =
      v.flags.map VerificationFlag.reason ++ ["Timestamp outside acceptable window"]) ∧
    (verify_message_pattern reg now v { p with timestamp := now - 299 }).1 = true := by
  have h301 : ((now - 301 : Int) - now).natAbs > 300 := by omega
  have h299 : ¬ (((now - 299 : Int) - now).natAbs > 300) := by omega
  refine ⟨?_, ?_, ?_⟩
  · simp [verify_message_pattern, hs301, h301]
  · simp [verify_message_pattern, hs301, h301, flag_violation]
  · simp [verify_message_pattern, hs299, h299, htrust]

/-- Witness for C7 at `basePacket`, `now = 1000`, empty registry. -/
theorem freshness_boundary_witness :
    (verify_message_pattern [] 1000 ⟨"primary_verifier", [], []⟩
      { basePacket with timestamp := (1000 : Int) - 301 }).1 = false ∧
    ((verify_message_pattern [] 1000 ⟨"primary_verifier", [], []⟩
        { basePacket with timestamp := (1000 : Int) - 301 }).2.flags.map
        VerificationFlag.reason =
      ([] : List VerificationFlag).map VerificationFlag.reason ++
        ["Timestamp outside acceptable window"]) ∧
    (verify_message_pattern [] 1000 ⟨"primary_verifier", [], []⟩
      { basePacket with timestamp := (1000 : Int) - 299 }).1 = true :=
  freshness_boundary_301_rejected_299_accepted [] 1000 ⟨"primary_verifier", [], []⟩
    basePacket (by decide) (by decide) (by decide)

/-! ## C2: constitutional claim from a Provisional-registered sender -/

/-- C2: an envelope claiming `trust_claim = ConstitutionallyProtected`
("constitutional_protected") whose sender is registered at trust level
"provisional" is rejected by the pattern/trust-policy check with one of the
two policy-violation reasons, for every value of its `constitutional_flags`
(in particular even when they contain "protected"). -/
theorem constitutional_claim_from_provisional_sender_rejected
    (reg : List (String × RegistryEntry)) (now : Int) (v : AutisticVerifier)
    (p : CognitivePacket) (e : RegistryEntry)
    (hstruct : p.validate_structure = true)
    (hfresh : ¬ ((p.timestamp - now).natAbs > 300))
    (htrust : p.trust_level = "constitutional_protected")
    (hlook : registryLookup reg p.sender_id = some e)
    (hprov : e.trust_level = "provisional") :
    (verify_message_pattern reg now v p).1 = false ∧
    ((verify_message_pattern reg now v p).2.flags.map VerificationFlag.reason =
        v.flags.map VerificationFlag.reason ++
          ["Constitutional trust level without protection flag"] ∨
     (verify_message_pattern reg now v p).2.flags.map VerificationFlag.reason =
        v.flags.map VerificationFlag.reason ++
          ["Non-constitutional component claiming constitutional trust"]) := by
  by_cases hc : "protected" ∈ p.constitutional_flags
  · constructor
    · simp [verify_message_pattern, hstruct, hfresh, htrust, hc, hlook, hprov]
    · right
      simp [verify_message_pattern, hstruct, hfresh, htrust, hc, hlook, hprov,
        flag_violation]
  · constructor
    · simp [verify_message_pattern, hstruct, hfresh, htrust, hc]
    · left
      simp [verify_message_pattern, hstruct, hfresh, htrust, hc, flag_violation]

/-- Witness for C2: a provisional-registered sender claiming constitutional
protection with the "protected" flag present. -/
theorem constitutional_claim_witness :
    (verify_message_pattern malloryRegistry 1000 freshVerifier malloryPacket).1 = false ∧
    ((verify_message_pattern malloryRegistry 1000 freshVerifier malloryPacket).2.flags.map
        VerificationFlag.reason =
        freshVerifier.flags.map VerificationFlag.reason ++
          ["Constitutional trust level without protection flag"] ∨
     (verify_message_pattern malloryRegistry 1000 freshVerifier malloryPacket).2.flags.map
        VerificationFlag.reason =
        freshVerifier.flags.map VerificationFlag.reason ++
          ["Non-constitutional component claiming constitutional trust"]) :=
  constitutional_claim_from_provisional_sender_rejected
    malloryRegistry 1000 freshVerifier malloryPacket malloryEntry
    (by decide) (by decide) (by decide) (by decide) (by decide)

/-! ## C10: unregistered sender skips the registry-backing half -/

/-- C10: when the sender has no registry entry, `get_sender_info` yields the
falsy empty dict and the registry-backing half of the constitutional check is
skipped: a structurally valid, fresh packet claiming "constitutional_protected"
with "protected" among its flags passes `verify_message_pattern` with no
violation flagged (the verifier state is returned unchanged). -/
theorem unregistered_sender_skips_registry_backing
    (reg : List (String × RegistryEntry)) (now : Int) (v : AutisticVerifier)
    (p : CognitivePacket)
    (hstruct : p.validate_structure = true)
    (hfresh : ¬ ((p.timestamp - now).natAbs > 300))
    (htrust : p.trust_level = "constitutional_protected")
    (hflag : p.constitutional_flags.contains "protected" = true)
    (hlook : registryLookup reg p.sender_id = none) :
    verify_message_pattern reg now v p = (true, v) := by
  have hm : "protected" ∈ p.constitutional_flags := by simpa using hflag
  simp [verify_message_pattern, hstruct, hfresh, htrust, hm, hlook]

/-- Witness for C10: an unregistered sender claiming constitutional
protection passes the pattern check with no flag raised. -/
theorem unregistered_sender_skips_registry_backing_witness :
    verify_message_pattern [] 1000 freshVerifier ghostConstPacket =
      (true, freshVerifier) :=
  unregistered_sender_skips_registry_backing [] 1000 freshVerifier ghostConstPacket
    (by decide) (by decide) (by decide) (by decide) (by decide)

/-! ## C1: what the signature actually covers -/

/-- C1 counterexample: a signed envelope verifies; mutating its priority (a
non-signature field) after signing leaves verification returning true, because
the signable content `sender_id + content + timestamp + nonce` does not cover
priority.  This refutes "mutating any non-signature field after signing causes
signature verification to return false". -/
theorem tamper_detection_all_fields_counterexample :
    verify_packet_signature (verify_signature_mock idHash) sampleRegistry
      signedPacket = true ∧
    tamperedPriorityPacket.priority ≠ signedPacket.priority ∧
    verify_packet_signature (verify_signature_mock idHash) sampleRegistry
      tamperedPriorityPacket = true := by decide

/-- C1 (amended): the signature covers only the signable fields
(sender_id, content, timestamp, nonce); mutating priority, resource_cost,
routing_path, trust_level (the trust claim) or constitutional_flags (the
policy flags) after signing leaves the result of signature verification
unchanged, for every crypto back-end and registry. -/
theorem signature_ignores_non_signable_fields
    (verifySig : String → String → String → Bool)
    (reg : List (String × RegistryEntry)) (p : CognitivePacket)
    (pr rc : String) (rp : List String) (tl : String) (cf : List String) :
    verify_packet_signature verifySig reg
      { p with
          priority := pr
          resource_cost := rc
          routing_path := rp
          trust_level := tl
          constitutional_flags := cf } =
      verify_packet_signature verifySig reg p := rfl

/-! ## C4: how an unknown sender is rejected -/

/-- C4 counterexample: an envelope from an unregistered sender is rejected,
but the flag it raises carries the very same reason string
("Invalid cryptographic signature") raised for a registered sender with a bad
signature: the rejection tag is not distinct from the invalid-signature one. -/
theorem unknown_sender_distinct_tag_counterexample :
    (validate_packet idHash (verify_signature_mock idHash) 1000 sampleBus
      ghostPacket).1 = false ∧
    ((validate_packet idHash (verify_signature_mock idHash) 1000 sampleBus
        ghostPacket).2.autistic_verifier.flags.map VerificationFlag.reason =
      ["Invalid cryptographic signature"]) ∧
    (validate_packet idHash (verify_signature_mock idHash) 1000 sampleBus
      badSigPacket).1 = false ∧
    ((validate_packet idHash (verify_signature_mock idHash) 1000 sampleBus
        badSigPacket).2.autistic_verifier.flags.map VerificationFlag.reason =
      ["Invalid cryptographic signature"]) := by decide

/-- C4 (amended): an envelope whose sender has no registry entry is rejected
by `validate_packet`, but it is flagged with the same
"Invalid cryptographic signature" reason used for signature failures; no
distinct UnknownSender tag exists. -/
theorem unknown_sender_rejected_as_invalid_signature
    (hash : String → String) (verifySig : String → String → String → Bool)
    (now : Int) (s : BusState) (p : CognitivePacket)
    (hstruct : p.validate_structure = true)
    (hlook : registryLookup s.component_registry p.sender_id = none) :
    (validate_packet hash verifySig now s p).1 = false ∧
    ((validate_packet hash verifySig now s p).2.autistic_verifier.flags.map
        VerificationFlag.reason =
      s.autistic_verifier.flags.map VerificationFlag.reason ++
        ["Invalid cryptographic signature"]) := by
  have hsig : verify_packet_signature verifySig s.component_registry p = false := by
    simp [verify_packet_signature, hlook]
  constructor
  · simp [validate_packet, hstruct, hsig]
  · simp [validate_packet, hstruct, hsig, flag_violation]

/-- Witness for the amended C4: the unregistered "ghost" sender is rejected
with the invalid-signature reason even under an accept-all crypto oracle. -/
theorem unknown_sender_rejected_witness :
    (validate_packet idHash okVerify 1000 sampleBus ghostPacket).1 = false ∧
    ((validate_packet idHash okVerify 1000 sampleBus
        ghostPacket).2.autistic_verifier.flags.map VerificationFlag.reason =
      sampleBus.autistic_verifier.flags.map VerificationFlag.reason ++
        ["Invalid cryptographic signature"]) :=
  unknown_sender_rejected_as_invalid_signature idHash okVerify 1000 sampleBus
    ghostPacket (by decide) (by decide)

/-! ## C6: the shape of the submission result -/

/-- C6 counterexample: a cryptographically invalid envelope and a valid
envelope withheld on risk grounds (risk score 0.6 from critical resource cost
and emergency priority) both make `route_cognitive_packet` return the same
bare `false`; the result does not let the caller tell the two apart. -/
theorem submission_result_three_way_counterexample :
    verify_packet_signature (verify_signature_mock idHash) sampleRegistry
      badSigPacket = false ∧
    (route_cognitive_packet idHash (verify_signature_mock idHash) 1000 sampleBus
      badSigPacket "r").1 = false ∧
    (validate_packet idHash (verify_signature_mock idHash) 1000 sampleBus
      riskyPacket).1 = true ∧
    5 ≤ risk_score riskyPacket ∧
    (route_cognitive_packet idHash (verify_signature_mock idHash) 1000 sampleBus
      riskyPacket "r").1 = false := by decide

/-- C6 (amended): the submission result is a single boolean — true exactly
when the envelope passes validation and its risk score is below 0.5; both a
rejected envelope and a cryptographically valid envelope withheld on risk
grounds yield `false`, so the result alone cannot distinguish the three
spec-level outcomes. -/
theorem route_result_is_bare_boolean
    (hash : String → String) (verifySig : String → String → String → Bool)
    (now : Int) (s : BusState) (p : CognitivePacket) (r : String) :
    (route_cognitive_packet hash verifySig now s p r).1 =
      ((validate_packet hash verifySig now s p).1 && decide (risk_score p < 5)) := by
  rcases hv : validate_packet hash verifySig now s p with ⟨ok, s1⟩
  cases ok
  · simp [route_cognitive_packet, hv]
  · by_cases hr : risk_score p < 5
    · simp [route_cognitive_packet, hv, apply_critical_reasoning_packet, hr]
    · simp [route_cognitive_packet, hv, apply_critical_reasoning_packet, hr]

/-! ## C5: multi-cast fan-out at an unknown destination -/

/-- C5: evaluating the code at the failing input.  A validated, low-risk
envelope multicast to ["claude_code", "component_x"] is reported delivered
(`True`), its record lands in claude_code's buffer, but "component_x" — named
in the destination list — has no buffer and silently receives nothing: the
fan-out is partial, not all-or-none.  (The source appends to the fresh list
returned by `message_buffers.get(receiver_id, [])`, which is discarded.) -/
theorem partial_fanout_unknown_destination :
    (route_cognitive_packet idHash (verify_signature_mock idHash) 1000 sampleBus
      twoDestPacket "safe transfer").1 = true ∧
    buffersLookup (route_cognitive_packet idHash (verify_signature_mock idHash)
        1000 sampleBus twoDestPacket "safe transfer").2.message_buffers
      "claude_code" =
      some [⟨twoDestPacket, apply_critical_reasoning_packet twoDestPacket
        "safe transfer", 1000⟩] ∧
    buffersLookup (route_cognitive_packet idHash (verify_signature_mock idHash)
        1000 sampleBus twoDestPacket "safe transfer").2.message_buffers
      "component_x" = none := by decide

/-! ## C8: the consensus-attack monitor's trigger -/

/-- C8 counterexample: three distinct senders each attempting a bypass
individually (one attacker per call) against the protected verifier within one
hour produce no alert at all — the third call returns `none` and no attempt is
even recorded, because `check_bypass_attempt` records an attempt only when a
single call reports at least two attacking components. -/
theorem single_attacker_attempts_counterexample :
    (check_bypass_attempt 2400
      (check_bypass_attempt 1200
        (check_bypass_attempt 0 initialMonitor "autistic_verifier"
          ["comp_a"]).2
        "autistic_verifier" ["comp_b"]).2
      "autistic_verifier" ["comp_c"]).1 = none ∧
    (check_bypass_attempt 2400
      (check_bypass_attempt 1200
        (check_bypass_attempt 0 initialMonitor "autistic_verifier"
          ["comp_a"]).2
        "autistic_verifier" ["comp_b"]).2
      "autistic_verifier" ["comp_c"]).2.bypass_attempts = [] := by decide

/-- C8 (amended): an attempt is recorded only when one call reports at least
two distinct attacking components against "autistic_verifier"; when three such
recorded attempts fall within one hour, the monitor emits exactly one CRITICAL
alert, on the third call (the first two calls return none). -/
theorem multi_attacker_alert_after_third_attempt
    (t1 t2 t3 : Int) (a1 a2 a3 : List String)
    (h1 : 2 ≤ a1.length) (h2 : 2 ≤ a2.length) (h3 : 2 ≤ a3.length)
    (hord : t2 ≤ t3)
    (hw1 : t3 - t1 < 3600) (hw2 : t3 - t2 < 3600) :
    (check_bypass_attempt t1 initialMonitor "autistic_verifier" a1).1 = none ∧
    (check_bypass_attempt t2
      (check_bypass_attempt t1 initialMonitor "autistic_verifier" a1).2
      "autistic_verifier" a2).1 = none ∧
    (check_bypass_attempt t3
      (check_bypass_attempt t2
        (check_bypass_attempt t1 initialMonitor "autistic_verifier" a1).2
        "autistic_verifier" a2).2
      "autistic_verifier" a3).1 =
      some (issue_attack_alert t3
        [⟨t1, "autistic_verifier", a1⟩, ⟨t2, "autistic_verifier", a2⟩,
         ⟨t3, "autistic_verifier", a3⟩]) ∧
    (issue_attack_alert t3
      [⟨t1, "autistic_verifier", a1⟩, ⟨t2, "autistic_verifier", a2⟩,
       ⟨t3, "autistic_verifier", a3⟩]).severity = "critical" := by
  have f11 : t1 - t1 < 3600 := by omega
  have f21 : t2 - t1 < 3600 := by omega
  have f22 : t2 - t2 < 3600 := by omega
  have f33 : t3 - t3 < 3600 := by omega
  have e1 : check_bypass_attempt t1 initialMonitor "autistic_verifier" a1 =
      (none, ⟨[⟨t1, "autistic_verifier", a1⟩], 3⟩) := by
    simp [check_bypass_attempt, initialMonitor, issue_attack_alert, h1, f11]
  have e2 : check_bypass_attempt t2
      (⟨[⟨t1, "autistic_verifier", a1⟩], 3⟩ : ConsensusMonitor)
      "autistic_verifier" a2 =
      (none, ⟨[⟨t1, "autistic_verifier", a1⟩, ⟨t2, "autistic_verifier", a2⟩],
        3⟩) := by
    simp [check_bypass_attempt, issue_attack_alert, h2, f21, f22]
  have e3 : check_bypass_attempt t3
      (⟨[⟨t1, "autistic_verifier", a1⟩, ⟨t2, "autistic_verifier", a2⟩], 3⟩ :
        ConsensusMonitor)
      "autistic_verifier" a3 =
      (some (issue_attack_alert t3
        [⟨t1, "autistic_verifier", a1⟩, ⟨t2, "autistic_verifier", a2⟩,
         ⟨t3, "autistic_verifier", a3⟩]),
       ⟨[⟨t1, "autistic_verifier", a1⟩, ⟨t2, "autistic_verifier", a2⟩,
         ⟨t3, "autistic_verifier", a3⟩], 3⟩) := by
    simp [check_bypass_attempt, issue_attack_alert, h3, hw1, hw2, f33]
  rw [e1, e2, e3]
  exact ⟨rfl, rfl, rfl, rfl⟩

/-- Witness for the amended C8: three two-attacker attempts at times 0, 600
and 1200 produce none, none, and a critical alert. -/
theorem multi_attacker_alert_witness :
    (check_bypass_attempt 0 initialMonitor "autistic_verifier"
      ["comp_a", "comp_b"]).1 = none ∧
    (check_bypass_attempt 600
      (check_bypass_attempt 0 initialMonitor "autistic_verifier"
        ["comp_a", "comp_b"]).2
      "autistic_verifier" ["comp_b", "comp_c"]).1 = none ∧
    (check_bypass_attempt 1200
      (check_bypass_attempt 600
        (check_bypass_attempt 0 initialMonitor "autistic_verifier"
          ["comp_a", "comp_b"]).2
        "autistic_verifier" ["comp_b", "comp_c"]).2
      "autistic_verifier" ["comp_a", "comp_c"]).1 =
      some (issue_attack_alert 1200
        [⟨0, "autistic_verifier", ["comp_a", "comp_b"]⟩,
         ⟨600, "autistic_verifier", ["comp_b", "comp_c"]⟩,
         ⟨1200, "autistic_verifier", ["comp_a", "comp_c"]⟩]) ∧
    (issue_attack_alert 1200
      [⟨0, "autistic_verifier", ["comp_a", "comp_b"]⟩,
       ⟨600, "autistic_verifier", ["comp_b", "comp_c"]⟩,
       ⟨1200, "autistic_verifier", ["comp_a", "comp_c"]⟩]).severity =
      "critical" :=
  multi_attacker_alert_after_third_attempt 0 600 1200
    ["comp_a", "comp_b"] ["comp_b", "comp_c"] ["comp_a", "comp_c"]
    (by decide) (by decide) (by decide) (by decide) (by decide) (by decide)

/-! ## C3: replay rejection is tagged and idempotent -/

/-- C3: two submissions with identical (sender_id, nonce, created_at): if the
first was accepted, a second submission that passes the structure, signature
and pattern checks is rejected with the nonce-reuse flag, and the rejection
leaves the nonce set unchanged (the replay key is not re-inserted). -/
theorem replay_second_submission_rejected
    (hash : String → String) (verifySig : String → String → String → Bool)
    (now1 now2 : Int) (s0 s1 : BusState) (p1 p2 : CognitivePacket)
    (hsender : p2.sender_id = p1.sender_id) (hnonce : p2.nonce = p1.nonce)
    (hts : p2.timestamp = p1.timestamp)
    (hfirst : validate_packet hash verifySig now1 s0 p1 = (true, s1))
    (hstruct : p2.validate_structure = true)
    (hsig : verify_packet_signature verifySig s1.component_registry p2 = true)
    (hpat : verify_message_pattern s1.component_registry now2
        s1.autistic_verifier p2 = (true, s1.autistic_verifier)) :
    (validate_packet hash verifySig now2 s1 p2).1 = false ∧
    (validate_packet hash verifySig now2 s1 p2).2.nonce_history =
      s1.nonce_history ∧
    ((validate_packet hash verifySig now2 s1 p2).2.autistic_verifier.flags.map
        VerificationFlag.reason =
      s1.autistic_verifier.flags.map VerificationFlag.reason ++
        ["Nonce reuse detected"]) := by
  have hmem : s1.nonce_history.contains (packet_replay_key hash p1) = true := by
    unfold validate_packet at hfirst
    split at hfirst
    · simp at hfirst
    · split at hfirst
      · simp at hfirst
      · split at hfirst
        · simp at hfirst
        · split at hfirst
          · simp at hfirst
          · injection hfirst with h1 h2
            subst h2
            simp
  have hkey : packet_replay_key hash p2 = packet_replay_key hash p1 := by
    simp [packet_replay_key, hsender, hnonce, hts]
  have hcon : packet_replay_key hash p2 ∈ s1.nonce_history := by
    rw [hkey]; simpa using hmem
  refine ⟨?_, ?_, ?_⟩ <;>
    simp [validate_packet, hstruct, hsig, hpat, hcon, flag_violation]

/-- Witness for C3: the signed sample packet is accepted once and its verbatim
resubmission is rejected with the nonce-reuse flag, leaving the nonce set as
it was after the first acceptance. -/
theorem replay_second_submission_witness :
    (validate_packet idHash (verify_signature_mock idHash) 1000
      { sampleBus with nonce_history := ["alicen11000"] } signedPacket).1 =
      false ∧
    (validate_packet idHash (verify_signature_mock idHash) 1000
      { sampleBus with nonce_history := ["alicen11000"] }
      signedPacket).2.nonce_history =
      ({ sampleBus with nonce_history := ["alicen11000"] } :
        BusState).nonce_history ∧
    ((validate_packet idHash (verify_signature_mock idHash) 1000
        { sampleBus with nonce_history := ["alicen11000"] }
        signedPacket).2.autistic_verifier.flags.map VerificationFlag.reason =
      ({ sampleBus with nonce_history := ["alicen11000"] } :
          BusState).autistic_verifier.flags.map VerificationFlag.reason ++
        ["Nonce reuse detected"]) :=
  replay_second_submission_rejected idHash (verify_signature_mock idHash)
    1000 1000 sampleBus { sampleBus with nonce_history := ["alicen11000"] }
    signedPacket signedPacket rfl rfl rfl (by decide) (by decide) (by decide)
    (by decide)

/-! ## C9: the flag ledger is append-only -/

/-- Helper: `flag_violation` only appends, and appends the same record to both
ledgers. -/
theorem flag_violation_extends (now : Int) (v : AutisticVerifier) (r c : String) :
    ∃ t, (flag_violation now v r c).flags = v.flags ++ t ∧
      (flag_violation now v r c).pattern_violations = v.pattern_violations ++ t :=
  ⟨[⟨now, r, c.take 200, v.verifier_id⟩], rfl, rfl⟩

/-- Helper: the pattern check only appends to the verifier's ledgers. -/
theorem verify_message_pattern_extends (reg : List (String × RegistryEntry))
    (now : Int) (v : AutisticVerifier) (p : CognitivePacket) :
    ∃ t, (verify_message_pattern reg now v p).2.flags = v.flags ++ t ∧
      (verify_message_pattern reg now v p).2.pattern_violations =
        v.pattern_violations ++ t := by
  unfold verify_message_pattern
  repeat' split
  all_goals
    first
      | exact flag_violation_extends _ _ _ _
      | exact ⟨[], by simp, by simp⟩

/-- Helper: packet validation only appends to the verifier's ledgers. -/
theorem validate_packet_extends (hash : String → String)
    (verifySig : String → String → String → Bool) (now : Int)
    (s : BusState) (p : CognitivePacket) :
    ∃ t, (validate_packet hash verifySig now s p).2.autistic_verifier.flags =
        s.autistic_verifier.flags ++ t ∧
      (validate_packet hash verifySig now s p).2.autistic_verifier.pattern_violations =
        s.autistic_verifier.pattern_violations ++ t := by
  unfold validate_packet
  split
  · exact ⟨[], by simp, by simp⟩
  · split
    · exact flag_violation_extends _ _ _ _
    · split
      · rename_i v2 heq
        obtain ⟨t, ht1, ht2⟩ :=
          verify_message_pattern_extends s.component_registry now s.autistic_verifier p
        rw [heq] at ht1 ht2
        simp only [] at ht1 ht2
        exact ⟨t, ht1, ht2⟩
      · rename_i v2 heq
        obtain ⟨t, ht1, ht2⟩ :=
          verify_message_pattern_extends s.component_registry now s.autistic_verifier p
        rw [heq] at ht1 ht2
        simp only [] at ht1 ht2
        split
        · obtain ⟨t2, h21, h22⟩ :=
            flag_violation_extends now v2 "Nonce reuse detected" (packetContext p)
          exact ⟨t ++ t2, by simp [h21, ht1], by simp [h22, ht2]⟩
        · exact ⟨t, ht1, ht2⟩

/-- Helper: routing only appends to the verifier's ledgers. -/
theorem route_cognitive_packet_extends (hash : String → String)
    (verifySig : String → String → String → Bool) (now : Int)
    (s : BusState) (p : CognitivePacket) (r : String) :
    ∃ t, (route_cognitive_packet hash verifySig now s p r).2.autistic_verifier.flags =
        s.autistic_verifier.flags ++ t ∧
      (route_cognitive_packet hash verifySig now s p
          r).2.autistic_verifier.pattern_violations =
        s.autistic_verifier.pattern_violations ++ t := by
  unfold route_cognitive_packet
  split
  · rename_i s1 heq
    obtain ⟨t, ht1, ht2⟩ := validate_packet_extends hash verifySig now s p
    rw [heq] at ht1 ht2
    simp only [] at ht1 ht2
    exact ⟨t, ht1, ht2⟩
  · rename_i s1 heq
    obtain ⟨t, ht1, ht2⟩ := validate_packet_extends hash verifySig now s p
    rw [heq] at ht1 ht2
    simp only [] at ht1 ht2
    by_cases hr : (apply_critical_reasoning_packet p r).safe
    · refine ⟨t, ?_, ?_⟩ <;> simp [hr, ht1, ht2]
    · refine ⟨t, ?_, ?_⟩ <;> simp [hr, ht1, ht2]

/-- Helper: one API call only appends to the verifier's ledgers. -/
theorem busStep_extends (hash : String → String)
    (verifySig : String → String → String → Bool) (now : Int)
    (s : BusState) (op : BusOp) :
    ∃ t, (busStep hash verifySig now s op).autistic_verifier.flags =
        s.autistic_verifier.flags ++ t ∧
      (busStep hash verifySig now s op).autistic_verifier.pattern_violations =
        s.autistic_verifier.pattern_violations ++ t := by
  cases op with
  | register cid pk tl fl => exact ⟨[], by simp [busStep, register_component],
      by simp [busStep, register_component]⟩
  | validate p => exact validate_packet_extends hash verifySig now s p
  | route p r => exact route_cognitive_packet_extends hash verifySig now s p r
  | status => exact ⟨[], by simp [busStep], by simp [busStep]⟩

/-- Helper: any sequence of API calls only appends to the verifier's ledgers. -/
theorem busRun_extends (hash : String → String)
    (verifySig : String → String → String → Bool)
    (ops : List (Int × BusOp)) (s : BusState) :
    ∃ t, (busRun hash verifySig s ops).autistic_verifier.flags =
        s.autistic_verifier.flags ++ t ∧
      (busRun hash verifySig s ops).autistic_verifier.pattern_violations =
        s.autistic_verifier.pattern_violations ++ t := by
  induction ops generalizing s with
  | nil => exact ⟨[], by simp [busRun], by simp [busRun]⟩
  | cons hd tl ih =>
    obtain ⟨now, op⟩ := hd
    obtain ⟨t1, h11, h12⟩ := busStep_extends hash verifySig now s op
    obtain ⟨t2, h21, h22⟩ := ih (busStep hash verifySig now s op)
    exact ⟨t1 ++ t2, by simp [busRun, h21, h11], by simp [busRun, h22, h12]⟩

/-- C9: the verification-flag ledger is append-only.  Over any sequence of
core API calls (registration, validation, routing, status queries), a flag
present in `verifier_status().active_flags` remains present afterwards, and
`total_violations` never decreases. -/
theorem flag_ledger_append_only (hash : String → String)
    (verifySig : String → String → String → Bool)
    (ops : List (Int × BusOp)) (s : BusState) (f : VerificationFlag)
    (hf : f ∈ (get_verifier_status s).active_flags) :
    f ∈ (get_verifier_status (busRun hash verifySig s ops)).active_flags ∧
    (get_verifier_status s).total_violations ≤
      (get_verifier_status (busRun hash verifySig s ops)).total_violations := by
  obtain ⟨t, h1, h2⟩ := busRun_extends hash verifySig ops s
  constructor
  · simp only [get_verifier_status] at hf ⊢
    rw [h1]
    exact List.mem_append_left _ hf
  · simp only [get_verifier_status]
    rw [h2]
    simp

/-- Witness for C9: a previously raised flag survives a subsequent validation
call (which itself records a fresh violation) and the violation total does not
decrease. -/
theorem flag_ledger_append_only_witness :
    someFlag ∈ (get_verifier_status (busRun idHash okVerify flaggedBus
      [(1000, BusOp.validate ghostPacket)])).active_flags ∧
    (get_verifier_status flaggedBus).total_violations ≤
      (get_verifier_status (busRun idHash okVerify flaggedBus
        [(1000, BusOp.validate ghostPacket)])).total_violations :=
  flag_ledger_append_only idHash okVerify [(1000, BusOp.validate ghostPacket)]
    flaggedBus someFlag (by decide)
